import Mathlib

/-!
Verification development for the WebSense-MCP server (`src/server.py`).

The file shallowly embeds the pure logic of the three operations
`fetch_page_content`, `web_search` and `url_info`.  Network requests and the
BeautifulSoup HTML parse are boundaries of the embedding: a fetched response
is modelled as an `Except` value (an exception message, or a status code,
header string and the already-parsed node tree), and the functions below are
translated line by line from the Python source operating on those values.
-/

namespace WebSense

/-- The ASCII whitespace characters recognised by Python's `str.strip()` and
by the regex class used in `re.sub(r'\s+', ' ', text)` (space, tab, newline,
carriage return, vertical tab, form feed). -/
def pyIsSpace (c : Char) : Bool :=
  c == (' ') || c == ('\t') || c == ('\n') || c == ('\r') ||
  c == (Char.ofNat 11) || c == (Char.ofNat 12)

/-- Python `str.strip()`: drop whitespace from both ends. -/
def pyStrip (s : List Char) : List Char :=
  ((s.dropWhile pyIsSpace).reverse.dropWhile pyIsSpace).reverse

/-- Python `str.lower()` (ASCII range, which is all the source compares). -/
def lowerL (s : List Char) : List Char := s.map Char.toLower

/-- `containsSeq needle hay` is Python's `needle in hay` substring test. -/
def containsSeq (needle : List Char) : List Char → Bool
  | [] => needle.isEmpty
  | c :: cs => needle.isPrefixOf (c :: cs) || containsSeq needle cs

/-- Substring test on `String`s, Python's `needle in hay`. -/
def pyContains (hay needle : String) : Bool := containsSeq needle.data hay.data

/-- Lower-cased copy of a string, Python's `s.lower()`. -/
def lowerStr (s : String) : String := String.mk (lowerL s.data)

/-- Helper for `collapseWs`: `prevSpace` records whether the previous
character belonged to a whitespace run that was already replaced. -/
def collapseWsAux (prevSpace : Bool) : List Char → List Char
  | [] => []
  | c :: cs =>
    if pyIsSpace c then
      if prevSpace then collapseWsAux true cs
      else (' ') :: collapseWsAux true cs
    else c :: collapseWsAux false cs

/-- Python `re.sub(r'\s+', ' ', s)`: every maximal run of whitespace becomes
a single ASCII space. -/
def collapseWs (s : List Char) : List Char := collapseWsAux false s

/-- Numeric value of a hex digit, the digits accepted by `urllib.parse.unquote`. -/
def hexVal (c : Char) : Option Nat :=
  let n := c.toNat
  if 48 ≤ n ∧ n ≤ 57 then some (n - 48)
  else if 97 ≤ n ∧ n ≤ 102 then some (n - 87)
  else if 65 ≤ n ∧ n ≤ 70 then some (n - 55)
  else none

/-- First pass of `urllib.parse.unquote`: each valid `%XX` escape becomes a
byte (`Sum.inr`), every other character is kept as text (`Sum.inl`).  An
invalid escape leaves the `%` as a literal character, as Python does. -/
def pctTokens : List Char → List (Char ⊕ Nat)
  | [] => []
  | ('%') :: h1 :: h2 :: rest =>
    match hexVal h1, hexVal h2 with
    | some a, some b => Sum.inr (16 * a + b) :: pctTokens rest
    | _, _ => Sum.inl ('%') :: pctTokens (h1 :: h2 :: rest)
  | c :: rest => Sum.inl c :: pctTokens rest

/-- The replacement character U+FFFD produced by `errors='replace'`. -/
def repl : Char := Char.ofNat 0xFFFD

/-- Whether `b2` is a valid second byte of a UTF-8 sequence led by `b1`
(the continuation ranges of the table in RFC 3629, as CPython checks them). -/
def validCont2 (b1 b2 : Nat) : Bool :=
  (b1 == 224 && (160 ≤ b2 && b2 ≤ 191)) ||
  (b1 == 237 && (128 ≤ b2 && b2 ≤ 159)) ||
  (b1 == 240 && (144 ≤ b2 && b2 ≤ 191)) ||
  (b1 == 244 && (128 ≤ b2 && b2 ≤ 143)) ||
  (b1 != 224 && b1 != 237 && b1 != 240 && b1 != 244 && (128 ≤ b2 && b2 ≤ 191))

/-- Second pass of `urllib.parse.unquote`: decode runs of escaped bytes as
UTF-8 (with U+FFFD replacement on ill-formed input, Python's
`errors='replace'`), pass literal characters through.  The `Nat` fuel makes
the recursion structural; one token is consumed per step, so any fuel at
least the token count gives the decoder's value. -/
def decodeTokensAux : Nat → List (Char ⊕ Nat) → List Char
  | 0, _ => []
  | _ + 1, [] => []
  | fuel + 1, Sum.inl c :: rest => c :: decodeTokensAux fuel rest
  | fuel + 1, Sum.inr b1 :: rest =>
    if b1 < 128 then Char.ofNat b1 :: decodeTokensAux fuel rest
    else if 194 ≤ b1 ∧ b1 ≤ 223 then
      match rest with
      | Sum.inr b2 :: rest2 =>
        if 128 ≤ b2 ∧ b2 ≤ 191 then
          Char.ofNat ((b1 - 192) * 64 + (b2 - 128)) :: decodeTokensAux fuel rest2
        else repl :: decodeTokensAux fuel rest
      | _ => repl :: decodeTokensAux fuel rest
    else if 224 ≤ b1 ∧ b1 ≤ 239 then
      match rest with
      | Sum.inr b2 :: Sum.inr b3 :: rest3 =>
        if validCont2 b1 b2 && (128 ≤ b3 && b3 ≤ 191) then
          Char.ofNat ((b1 - 224) * 4096 + (b2 - 128) * 64 + (b3 - 128))
            :: decodeTokensAux fuel rest3
        else repl :: decodeTokensAux fuel rest
      | _ => repl :: decodeTokensAux fuel rest
    else if 240 ≤ b1 ∧ b1 ≤ 244 then
      match rest with
      | Sum.inr b2 :: Sum.inr b3 :: Sum.inr b4 :: rest4 =>
        if validCont2 b1 b2 && (128 ≤ b3 && b3 ≤ 191) && (128 ≤ b4 && b4 ≤ 191) then
          Char.ofNat ((b1 - 240) * 262144 + (b2 - 128) * 4096 + (b3 - 128) * 64 + (b4 - 128))
            :: decodeTokensAux fuel rest4
        else repl :: decodeTokensAux fuel rest
      | _ => repl :: decodeTokensAux fuel rest
    else repl :: decodeTokensAux fuel rest

/-- `urllib.parse.unquote` (UTF-8, `errors='replace'`): percent-decode. -/
def pyUnquote (s : List Char) : List Char :=
  decodeTokensAux (pctTokens s).length (pctTokens s)

/-- Front part of Python `s.split(sep)[0]` for a non-empty separator: the
characters before the first occurrence of `sep` (all of `s` when absent). -/
def takeToFirst (sep : List Char) : List Char → List Char
  | [] => []
  | c :: cs => if sep.isPrefixOf (c :: cs) then [] else c :: takeToFirst sep cs

/-- The suffix just after the first occurrence of `sep`, `none` when `sep`
does not occur.  `some` composed with `takeToFirst sep` gives Python's
`s.split(sep)[1]`. -/
def dropAfterFirst (sep : List Char) : List Char → Option (List Char)
  | [] => none
  | c :: cs =>
    if sep.isPrefixOf (c :: cs) then some ((c :: cs).drop sep.length)
    else dropAfterFirst sep cs

/-- The separator `'uddg='` used by the redirect-URL cleanup. -/
def uddgKey : List Char := ("uddg=").data

/-- The DuckDuckGo redirect prefix tested with `url.startswith('/l/?uddg=')`. -/
def redirectPre : List Char := ("/l/?uddg=").data

/-- The redirect cleanup inlined in `web_search` (src/server.py:123-125):
`if url.startswith('/l/?uddg='): url = urllib.parse.unquote(url.split('uddg=')[1].split('&')[0])`.
`s.split('uddg=')[1]` is the text between the first and second occurrence of
`'uddg='` (the index `[1]` cannot fail under the `startswith` guard), and
`.split('&')[0]` is the text before the first `'&'` of that piece. -/
def cleanRedirectUrl (url : String) : String :=
  if redirectPre.isPrefixOf url.data then
    String.mk (pyUnquote (takeToFirst (("&").data)
      (takeToFirst uddgKey ((dropAfterFirst uddgKey url.data).getD []))))
  else url

/-!
The parsed HTML document.  `BeautifulSoup(html, 'html.parser')` is a library
boundary; its output is modelled as a rose tree of element and text nodes.
The only attributes the source ever reads are the class tokens (bs4 stores
the multi-valued `class` attribute as a token list) and `href`, so those are
the attributes the model carries.  The tree and the node list are a mutual
inductive so that every traversal below is structurally recursive.
-/

mutual
inductive Node where
  | text (s : String)
  | elem (tag : String) (classes : List String) (href : Option String) (children : NodeList)
inductive NodeList where
  | nil
  | cons (head : Node) (tail : NodeList)
end

/-- Build a `NodeList` from a `List Node` (fixture notation helper). -/
def nodesOf : List Node → NodeList
  | [] => NodeList.nil
  | n :: r => NodeList.cons n (nodesOf r)

/-- The children of a node (a text node has none). -/
def childrenOf : Node → NodeList
  | Node.text _ => NodeList.nil
  | Node.elem _ _ _ ch => ch

/-- The `href` attribute of a node, bs4's `tag.get('href')`. -/
def hrefOf : Node → Option String
  | Node.text _ => none
  | Node.elem _ _ href _ => href

mutual
/-- First node satisfying `p` in the subtree rooted at `n` (preorder:
the node itself, then its descendants), as bs4's recursive `find`. -/
def findFirstN (p : Node → Bool) (n : Node) : Option Node :=
  match n with
  | Node.text s => if p (Node.text s) then some (Node.text s) else none
  | Node.elem t c h ch =>
    if p (Node.elem t c h ch) then some (Node.elem t c h ch) else findFirstL p ch
/-- First node satisfying `p` in a forest, in document order. -/
def findFirstL (p : Node → Bool) (l : NodeList) : Option Node :=
  match l with
  | NodeList.nil => none
  | NodeList.cons n rest =>
    match findFirstN p n with
    | some r => some r
    | none => findFirstL p rest
end

mutual
/-- All nodes satisfying `p` in the subtree rooted at `n`, in document
order, descendants of matches included — bs4's `find_all`. -/
def findAllN (p : Node → Bool) (n : Node) : List Node :=
  match n with
  | Node.text s => if p (Node.text s) then [Node.text s] else []
  | Node.elem t c h ch =>
    (if p (Node.elem t c h ch) then [Node.elem t c h ch] else []) ++ findAllL p ch
/-- All nodes satisfying `p` in a forest, in document order. -/
def findAllL (p : Node → Bool) (l : NodeList) : List Node :=
  match l with
  | NodeList.nil => []
  | NodeList.cons n rest => findAllN p n ++ findAllL p rest
end

mutual
/-- The text-node strings of the subtree rooted at `n`, in document order —
the `NavigableString`s that bs4's `get_text` walks. -/
def textsN (n : Node) : List String :=
  match n with
  | Node.text s => [s]
  | Node.elem _ _ _ ch => textsL ch
/-- The text-node strings of a forest, in document order. -/
def textsL (l : NodeList) : List String :=
  match l with
  | NodeList.nil => []
  | NodeList.cons n rest => textsN n ++ textsL rest
end

mutual
/-- Drop every `<script>` and `<style>` subtree — the effect of the loop
`for script in soup(["script", "style"]): script.decompose()`. -/
def decomposeScriptStyleN (n : Node) : Option Node :=
  match n with
  | Node.text s => some (Node.text s)
  | Node.elem t c h ch =>
    if t == ("script") || t == ("style") then none
    else some (Node.elem t c h (decomposeScriptStyleL ch))
/-- `decomposeScriptStyleN` over a forest. -/
def decomposeScriptStyleL (l : NodeList) : NodeList :=
  match l with
  | NodeList.nil => NodeList.nil
  | NodeList.cons n rest =>
    match decomposeScriptStyleN n with
    | some m => NodeList.cons m (decomposeScriptStyleL rest)
    | none => decomposeScriptStyleL rest
end

/-- `n` is an element with the given tag name. -/
def tagIs (t : String) (n : Node) : Bool :=
  match n with
  | Node.text _ => false
  | Node.elem tg _ _ _ => tg == t

/-- bs4 string-valued class match: the candidate equals one of the
element's class tokens (`find_all('div', class_='result')` etc.). -/
def hasClassTok (cls : String) (n : Node) : Bool :=
  match n with
  | Node.text _ => false
  | Node.elem _ classes _ _ => classes.contains cls

/-- One class token matched by `re.compile(r'content|main|article')`:
`re.search` succeeds iff one of the three words occurs in the token.  The
source compiles the pattern without `re.IGNORECASE`, so the match is
case-sensitive. -/
def classTokenHasPat (t : String) : Bool :=
  containsSeq (("content").data) t.data || containsSeq (("main").data) t.data ||
  containsSeq (("article").data) t.data

/-- The candidate of `soup.find('div', class_=re.compile(r'content|main|article'))`:
a `div` element one of whose class tokens matches the pattern (bs4 runs the
regex against each token of the multi-valued attribute). -/
def isDivClassPat (n : Node) : Bool :=
  match n with
  | Node.text _ => false
  | Node.elem tg classes _ _ => tg == ("div") && classes.any classTokenHasPat

/-- Join text pieces with a separator — Python's `sep.join`. -/
def joinPieces (sep : List Char) (pieces : List (List Char)) : List Char :=
  List.intercalate sep pieces

/-- bs4 `_all_strings(strip=True)` post-processing: strip each text-node
string, drop the ones that become empty. -/
def stripPieces (ps : List String) : List (List Char) :=
  (ps.map (fun s => pyStrip s.data)).filter (fun p => !p.isEmpty)

/-- bs4 `tag.get_text(separator=' ', strip=True)`. -/
def getTextSep (n : Node) : List Char := joinPieces [(' ')] (stripPieces (textsN n))

/-- `get_text(separator=' ', strip=True)` on the whole document (`soup.get_text`). -/
def getTextSepL (l : NodeList) : List Char := joinPieces [(' ')] (stripPieces (textsL l))

/-- bs4 `tag.get_text(strip=True)` (default empty separator). -/
def getTextCat (n : Node) : List Char := joinPieces [] (stripPieces (textsN n))

/-- The main-content choice (src/server.py:41-46):
`soup.find('main') or soup.find('article') or
 soup.find('div', class_=re.compile(r'content|main|article')) or soup.body`.
A bs4 `Tag` is always truthy, so `or` returns the first successful `find`;
`soup.body` is the first `body` element of the document. -/
def selectMainContent (doc : NodeList) : Option Node :=
  match findFirstL (tagIs ("main")) doc with
  | some n => some n
  | none =>
    match findFirstL (tagIs ("article")) doc with
    | some n => some n
    | none =>
      match findFirstL isDivClassPat doc with
      | some n => some n
      | none => findFirstL (tagIs ("body")) doc

/-- The final bounding step of the extractor (src/server.py:57-58):
`if len(text) > max_length: text = text[:max_length] + "..."`. -/
def boundText (text : List Char) (maxLength : Nat) : List Char :=
  if maxLength < text.length then text.take maxLength ++ ("...").data else text

/-- The text pipeline of `fetch_page_content` after the guards
(src/server.py:33-60): decompose script/style, select the main content, get
its whitespace-separated text (the whole document's when nothing was
selected), collapse whitespace runs, strip, bound the length. -/
def extractText (doc : NodeList) (maxLength : Nat) : List Char :=
  let cleaned := decomposeScriptStyleL doc
  let raw :=
    match selectMainContent cleaned with
    | some n => getTextSep n
    | none => getTextSepL cleaned
  boundText (pyStrip (collapseWs raw)) maxLength

/-- A fetched HTTP response as `fetch_page_content` consumes it: the status,
the `content-type` header (`''` when absent, as `headers.get` defaults it)
and the parsed body. -/
structure Response where
  status : Nat
  contentType : String
  body : NodeList

/-- `fetch_page_content(session, url, max_length)` (src/server.py:22-63).
The network request and the HTML parse are the embedding boundary: the
argument is the outcome of `session.get(url)` — `Except.error e` when the
`try` body raised with message `e` (so the `except` arm runs), `Except.ok`
with the response otherwise. -/
def fetch_page_content (fetched : Except String Response) (maxLength : Nat) : String :=
  match fetched with
  | Except.error e => ("Content extraction failed: ") ++ e
  | Except.ok r =>
    if r.status ≠ 200 then ("HTTP ") ++ toString r.status
    else if !(pyContains (lowerStr r.contentType) ("text/html")) then ("Non-HTML content")
    else String.mk (extractText r.body maxLength)

/-- One search result entry, the dict built in the `web_search` loop.
`content` is `none` when the optional `"content"` key is absent. -/
structure ResultItem where
  title : String
  url : String
  snippet : String
  content : Option String

/-- The dict returned by `web_search`, with one `Option` per possible key:
success populates `query`, `results_count` and `results`; failure populates
only `error`. -/
structure SearchResponse where
  query : Option String
  results_count : Option Nat
  results : Option (List ResultItem)
  error : Option String

/-- The body of the `web_search` loop for one result block
(src/server.py:112-143): find the title anchor (`continue`, i.e. `none`,
when absent), take its text and href, clean the redirect, take the snippet
anchor's text (`""` when absent), and optionally attach the fetched content.
`pages` maps a URL to the outcome of the `session.get` issued for it. -/
def buildResultItem (includeContent : Bool) (pages : String → Except String Response)
    (block : Node) : Option ResultItem :=
  match findFirstL (fun n => tagIs ("a") n && hasClassTok ("result__a") n) (childrenOf block) with
  | none => none
  | some titleTag =>
    let title := String.mk (getTextCat titleTag)
    let url := cleanRedirectUrl ((hrefOf titleTag).getD (""))
    let snippet :=
      match findFirstL (fun n => tagIs ("a") n && hasClassTok ("result__snippet") n)
          (childrenOf block) with
      | some s => String.mk (getTextCat s)
      | none => ("")
    if includeContent && !(url == ("")) then
      some { title := title, url := url, snippet := snippet,
             content := some (fetch_page_content (pages url) 2000) }
    else
      some { title := title, url := url, snippet := snippet, content := none }

/-- `web_search(query, limit, include_content)` (src/server.py:66-152).
`searchFetch` is the outcome of the GET to the results endpoint (the
`Except.error` case is the outer `except` arm); `pages` gives the outcome of
each per-result content GET.  On a 200 response the loop runs over
`result_divs[:limit]` where `result_divs = soup.find_all('div', class_='result')`,
skipping blocks without a title anchor (`filterMap`). -/
def web_search (query : String) (lim : Nat) (includeContent : Bool)
    (searchFetch : Except String Response)
    (pages : String → Except String Response) : SearchResponse :=
  match searchFetch with
  | Except.error e =>
    { query := none, results_count := none, results := none,
      error := some (("Search failed: ") ++ e) }
  | Except.ok r =>
    if r.status ≠ 200 then
      { query := none, results_count := none, results := none,
        error := some (("Search failed with status ") ++ toString r.status) }
    else
      let resultDivs := findAllL (fun n => tagIs ("div") n && hasClassTok ("result") n) r.body
      let items := (resultDivs.take lim).filterMap (buildResultItem includeContent pages)
      { query := some query, results_count := some items.length,
        results := some items, error := none }

/-- The data `url_info` reads from its HEAD probe: the final URL after
redirects, the status, and the four headers it looks up (absent headers are
`none`, defaulted to `"unknown"` by the function). -/
structure HeadInfo where
  finalUrl : String
  status : Nat
  contentTypeHdr : Option String
  contentLengthHdr : Option String
  serverHdr : Option String
  lastModifiedHdr : Option String

/-- The success dict built by `url_info`. -/
structure UrlInfoOk where
  url : String
  status_code : Nat
  content_type : String
  content_length : String
  server : String
  last_modified : String
  content_preview : Option String

/-- The two mutually exclusive shapes `url_info` returns. -/
inductive UrlInfoResult where
  | ok (info : UrlInfoOk)
  | failure (msg : String)

/-- `url_info(url)` (src/server.py:155-195).  `headFetch` is the outcome of
`session.head(url, allow_redirects=True)`; `pages` gives the outcome of the
follow-up content GET used when the content type contains `text/html`. -/
def url_info (headFetch : Except String HeadInfo)
    (pages : String → Except String Response) : UrlInfoResult :=
  match headFetch with
  | Except.error e => UrlInfoResult.failure (("URL analysis failed: ") ++ e)
  | Except.ok h =>
    let ct := h.contentTypeHdr.getD ("unknown")
    let preview :=
      if pyContains (lowerStr ct) ("text/html") then
        some (fetch_page_content (pages h.finalUrl) 500)
      else none
    UrlInfoResult.ok
      { url := h.finalUrl, status_code := h.status, content_type := ct,
        content_length := h.contentLengthHdr.getD ("unknown"),
        server := h.serverHdr.getD ("unknown"),
        last_modified := h.lastModifiedHdr.getD ("unknown"),
        content_preview := preview }

/-- The `content_preview` field of a `url_info` result, `none` on the error
shape. -/
def previewOf : UrlInfoResult → Option String
  | UrlInfoResult.ok i => i.content_preview
  | UrlInfoResult.failure _ => none

/-- Modelled from the spec wording of the main-content heuristic, for
comparison with `selectMainContent`: "any element whose class attribute
textually matches the pattern `content|main|article` (case-insensitive
substring match against one or more class tokens)" — any tag, and the
three words are looked for case-insensitively. -/
def specClassTokenPat (t : String) : Bool :=
  containsSeq (("content").data) (lowerL t.data) ||
  containsSeq (("main").data) (lowerL t.data) ||
  containsSeq (("article").data) (lowerL t.data)

/-- Modelled from the spec wording: an element of any tag with a class token
matching the pattern case-insensitively. -/
def specClassElem (n : Node) : Bool :=
  match n with
  | Node.text _ => false
  | Node.elem _ classes _ _ => classes.any specClassTokenPat

/-- Modelled from the spec wording of the selection order: `<main>`, else
`<article>`, else any element with a matching class (per `specClassElem`),
else the body. -/
def specSelectMainContent (doc : NodeList) : Option Node :=
  match findFirstL (tagIs ("main")) doc with
  | some n => some n
  | none =>
    match findFirstL (tagIs ("article")) doc with
    | some n => some n
    | none =>
      match findFirstL specClassElem doc with
      | some n => some n
      | none => findFirstL (tagIs ("body")) doc

/-- A result block has a parsable title anchor: `find('a', class_='result__a')`
inside it succeeds. -/
def hasTitleAnchor (n : Node) : Bool :=
  (findFirstL (fun m => tagIs ("a") m && hasClassTok ("result__a") m) (childrenOf n)).isSome

/-- Number of result blocks of the whole document that have a parsable
title anchor. -/
def countParsableBlocks (doc : NodeList) : Nat :=
  ((findAllL (fun n => tagIs ("div") n && hasClassTok ("result") n) doc).filter
    hasTitleAnchor).length

/-!  Concrete fixtures used by the end-to-end theorems below. -/

/-- A well-formed result block: `<div class="result">` containing a title
anchor with an `href` and a snippet anchor. -/
def mkBlock (title href snip : String) : Node :=
  Node.elem ("div") [("result")] none (nodesOf [
    Node.elem ("a") [("result__a")] (some href) (nodesOf [Node.text title]),
    Node.elem ("a") [("result__snippet")] none (nodesOf [Node.text snip])])

/-- A page-fetch environment in which every content GET raises. -/
def noPages : String → Except String Response := fun _ => Except.error ("no network")

/-- Fixture results page with three well-formed result blocks, the middle
one carrying a redirect-wrapped URL. -/
def fixtureDoc : NodeList := nodesOf [
  mkBlock ("Alpha") ("https://a.example/1") ("First snippet"),
  mkBlock ("Beta") ("/l/?uddg=https%3A%2F%2Fexample.com%2Fx&rut=abc") ("Second snippet"),
  mkBlock ("Gamma") ("https://c.example/3") ("Third snippet")]

/-- A 200 `text/html` response carrying the three-block fixture page. -/
def fixtureResp : Response :=
  { status := 200, contentType := ("text/html"), body := fixtureDoc }

/-- Results page whose first block has no title anchor and whose second
block is well-formed. -/
def skipDoc : NodeList := nodesOf [
  Node.elem ("div") [("result")] none (nodesOf []),
  mkBlock ("T") ("https://a.example/") ("s")]

/-- A 200 `text/html` response carrying `skipDoc`. -/
def skipResp : Response :=
  { status := 200, contentType := ("text/html"), body := skipDoc }

/-- A document whose only content-like element is a `<span class="content">`
(no `main`, no `article`, no `div`, no `body`). -/
def spanContentDoc : NodeList :=
  nodesOf [Node.elem ("span") [("content")] none (nodesOf [Node.text ("X")])]

/-- A document whose only content-like element is a `<div class="Content">`
(upper-case C, so the case-sensitive pattern of the source misses it). -/
def upperContentDoc : NodeList :=
  nodesOf [Node.elem ("div") [("Content")] none (nodesOf [Node.text ("X")])]

/-- A one-element document holding a `<main>` element. -/
def mainNodeFix : Node := Node.elem ("main") [] none (nodesOf [Node.text ("m")])

/-- A document whose single root is `mainNodeFix`. -/
def mainDocFix : NodeList := nodesOf [mainNodeFix]

/-- A redirect URL whose percent-decoded payload is again a redirect URL. -/
def nestedRedirect : String := ("/l/?uddg=%2Fl%2F%3Fuddg%3Dfoo")

/-- A 404 `text/html` response. -/
def notFoundResp : Response :=
  { status := 404, contentType := ("text/html"), body := NodeList.nil }

/-- A 200 response whose content type is not HTML. -/
def pdfResp : Response :=
  { status := 200, contentType := ("application/pdf"), body := NodeList.nil }

/-- A 477-character exception message, long enough that the extractor's
failure string exceeds 503 characters. -/
def longMsg : String := String.mk (List.replicate 477 ('x'))

/-- HEAD-probe data: status 200, content type `text/html`. -/
def htmlHead : HeadInfo :=
  { finalUrl := ("https://site.example/"), status := 200,
    contentTypeHdr := some ("text/html; charset=utf-8"), contentLengthHdr := none,
    serverHdr := none, lastModifiedHdr := none }

/-- A page-fetch environment in which the content GET raises with the long
message. -/
def longFailPages : String → Except String Response := fun _ => Except.error longMsg

/-- A small 200 `text/html` page. -/
def tinyPage : Response :=
  { status := 200, contentType := ("text/html"), body := nodesOf [Node.text ("hi")] }

/-- HEAD-probe data for the sunny-day `url_info` witness. -/
def tinyHead : HeadInfo :=
  { finalUrl := ("https://ok.example/"), status := 200,
    contentTypeHdr := some ("text/html"), contentLengthHdr := none,
    serverHdr := none, lastModifiedHdr := none }

/-- Page-fetch environment delivering `tinyPage` for every URL. -/
def tinyPages : String → Except String Response := fun _ => Except.ok tinyPage

/-!  General lemmas about the embedded operations. -/

/-- When the separator never occurs, `takeToFirst` returns the whole list. -/
theorem takeToFirst_eq_self (sep : List Char) (s : List Char)
    (h : dropAfterFirst sep s = none) : takeToFirst sep s = s := by
  induction s with
  | nil => rfl
  | cons c cs ih =>
    cases hp : sep.isPrefixOf (c :: cs) with
    | true => simp [dropAfterFirst, hp] at h
    | false =>
      simp only [dropAfterFirst, hp] at h
      simp only [takeToFirst, hp]
      simp [ih h]

/-- A URL that does not start with the redirect marker is returned as is. -/
theorem cleanRedirectUrl_of_not_redirect (u : String)
    (h : redirectPre.isPrefixOf u.data = false) : cleanRedirectUrl u = u := by
  simp [cleanRedirectUrl, h]

/-- A list is a `isPrefixOf` of itself followed by anything. -/
theorem isPrefixOf_append_self (l t : List Char) : l.isPrefixOf (l ++ t) = true := by
  induction l with
  | nil => simp
  | cons a as ih => simp [List.cons_append, List.isPrefixOf_cons₂_self, ih]

/-- `dropAfterFirst` steps over a position where the separator does not match. -/
theorem dropAfterFirst_cons_neg (sep : List Char) (c : Char) (cs : List Char)
    (h : sep.isPrefixOf (c :: cs) = false) :
    dropAfterFirst sep (c :: cs) = dropAfterFirst sep cs := by
  simp [dropAfterFirst, h]

/-- `dropAfterFirst` fires at a position where the separator matches. -/
theorem dropAfterFirst_cons_pos (sep : List Char) (c : Char) (cs : List Char)
    (h : sep.isPrefixOf (c :: cs) = true) :
    dropAfterFirst sep (c :: cs) = some ((c :: cs).drop sep.length) := by
  simp [dropAfterFirst, h]

/-- On a string of the form `/l/?uddg=<payload>` the first occurrence of
`uddg=` is the one of the prefix, so `dropAfterFirst` returns the payload. -/
theorem dropAfterFirst_pre (s : List Char) :
    dropAfterFirst uddgKey (redirectPre ++ s) = some s := by
  have e1 : redirectPre ++ s = ('/') :: ('l') :: ('/') :: ('?') :: (uddgKey ++ s) := rfl
  have h1 : uddgKey.isPrefixOf (('/') :: ('l') :: ('/') :: ('?') :: (uddgKey ++ s)) = false := rfl
  have h2 : uddgKey.isPrefixOf (('l') :: ('/') :: ('?') :: (uddgKey ++ s)) = false := rfl
  have h3 : uddgKey.isPrefixOf (('/') :: ('?') :: (uddgKey ++ s)) = false := rfl
  have h4 : uddgKey.isPrefixOf (('?') :: (uddgKey ++ s)) = false := rfl
  have e2 : uddgKey ++ s = ('u') :: ('d') :: ('d') :: ('g') :: ('=') :: s := rfl
  have h5 : uddgKey.isPrefixOf (('u') :: ('d') :: ('d') :: ('g') :: ('=') :: s) = true := by
    rw [← e2]; exact isPrefixOf_append_self _ _
  rw [e1, dropAfterFirst_cons_neg _ _ _ h1, dropAfterFirst_cons_neg _ _ _ h2,
    dropAfterFirst_cons_neg _ _ _ h3, dropAfterFirst_cons_neg _ _ _ h4, e2,
    dropAfterFirst_cons_pos _ _ _ h5]
  have e3 : uddgKey.length = 5 := rfl
  rw [e3]
  rfl

/-- The loop body emits an item exactly when the block has a title anchor. -/
theorem buildResultItem_isSome (ic : Bool) (pages : String → Except String Response)
    (b : Node) : (buildResultItem ic pages b).isSome = hasTitleAnchor b := by
  unfold buildResultItem hasTitleAnchor
  cases h : findFirstL (fun n => tagIs ("a") n && hasClassTok ("result__a") n) (childrenOf b) with
  | none => simp [h]
  | some t =>
    simp only [h, Option.isSome_some]
    split <;> rfl

/-- `filterMap` keeps as many elements as the `isSome` filter. -/
theorem length_filterMap_isSome {α β : Type} (f : α → Option β) (l : List α) :
    (l.filterMap f).length = (l.filter (fun a => (f a).isSome)).length := by
  induction l with
  | nil => rfl
  | cons a l ih =>
    cases h : f a <;> simp [List.filterMap_cons, List.filter_cons, h, ih]

/-- The bounding step never yields more than `maxLength + 3` characters. -/
theorem boundText_length_le (t : List Char) (n : Nat) :
    (boundText t n).length ≤ n + 3 := by
  unfold boundText
  split
  · rename_i h
    simp only [List.length_append, List.length_take]
    have h3 : (("...").data).length = 3 := rfl
    rw [h3]
    have := Nat.min_le_left n t.length
    omega
  · rename_i h
    exact Nat.le_trans (Nat.le_of_not_lt h) (Nat.le_add_right n 3)

/-!  Claim theorems. -/

/-- Claim C1, counterexample: the claim says a result block with no title
anchor does not count toward the limit, so on a document whose first block
lacks a title anchor and whose second block is well-formed, `limit = 1`
should still produce `results_count = min(limit, parsable blocks) = 1`.
The code slices `result_divs[:limit]` before skipping, so the unparsable
block consumes the only slot and `results_count` is `0`. -/
theorem web_search_skip_consumes_slot_cex :
    (web_search ("q") 1 false (Except.ok skipResp) noPages).results_count ≠
      some (min 1 (countParsableBlocks skipDoc)) := by decide

/-- Claim C1, amended: for every limit ≥ 1, a block without a parsable title
anchor is skipped without emitting an item but still occupies one of the
`limit` examined slots: `results_count` equals the number of blocks with a
parsable title anchor among the FIRST `limit` result blocks of the document,
and is therefore at most `limit`. -/
theorem web_search_results_count (q : String) (lim : Nat) (ic : Bool) (r : Response)
    (pages : String → Except String Response) (_hlim : 1 ≤ lim) (hst : r.status = 200) :
    (web_search q lim ic (Except.ok r) pages).results_count =
      some ((((findAllL (fun n => tagIs ("div") n && hasClassTok ("result") n) r.body).take
        lim).filter hasTitleAnchor).length) ∧
    ((((findAllL (fun n => tagIs ("div") n && hasClassTok ("result") n) r.body).take
        lim).filter hasTitleAnchor).length) ≤ lim := by
  constructor
  · simp only [web_search, hst, ne_eq, not_true_eq_false, if_false, ite_false]
    simp only [length_filterMap_isSome]
    congr 2
    apply List.filter_congr
    intro a _
    exact buildResultItem_isSome ic pages a
  · exact Nat.le_trans (List.length_filter_le _ _) (List.length_take_le _ _)

/-- Claim C1, witness for the amended theorem at the skip fixture. -/
theorem web_search_results_count_witness :
    (web_search ("q") 1 false (Except.ok skipResp) noPages).results_count =
      some ((((findAllL (fun n => tagIs ("div") n && hasClassTok ("result") n)
        skipResp.body).take 1).filter hasTitleAnchor).length) :=
  (web_search_results_count ("q") 1 false skipResp noPages (by decide) rfl).1

/-- Claim C2, counterexample: the claim says the class-pattern stage matches
any element of any tag, case-insensitively.  On a document whose only
candidate is `<span class="content">` the source selects nothing (its
pattern stage only looks at `div` elements), and on `<div class="Content">`
it also selects nothing (its regex is compiled without `re.IGNORECASE`),
while the claim's selector finds both. -/
theorem selectMainContent_cex :
    ((selectMainContent spanContentDoc).isNone = true ∧
      specSelectMainContent spanContentDoc =
        some (Node.elem ("span") [("content")] none (nodesOf [Node.text ("X")]))) ∧
    ((selectMainContent upperContentDoc).isNone = true ∧
      specSelectMainContent upperContentDoc =
        some (Node.elem ("div") [("Content")] none (nodesOf [Node.text ("X")]))) :=
  ⟨⟨rfl, rfl⟩, ⟨rfl, rfl⟩⟩

/-- Claim C2, amended: the selection is a first-match priority list:
a `<main>` element; else an `<article>` element; else a `<div>` element one
of whose class tokens contains `content`, `main` or `article` as a
case-sensitive substring; else the document body (whose absence means the
whole document is used). -/
theorem selectMainContent_priority (doc : NodeList) :
    (∀ m, findFirstL (tagIs ("main")) doc = some m → selectMainContent doc = some m) ∧
    (findFirstL (tagIs ("main")) doc = none →
      (∀ a, findFirstL (tagIs ("article")) doc = some a → selectMainContent doc = some a) ∧
      (findFirstL (tagIs ("article")) doc = none →
        (∀ d, findFirstL isDivClassPat doc = some d → selectMainContent doc = some d) ∧
        (findFirstL isDivClassPat doc = none →
          selectMainContent doc = findFirstL (tagIs ("body")) doc))) := by
  constructor
  · intro m hm; simp [selectMainContent, hm]
  · intro h1
    constructor
    · intro a ha; simp [selectMainContent, h1, ha]
    · intro h2
      constructor
      · intro d hd; simp [selectMainContent, h1, h2, hd]
      · intro h3; simp [selectMainContent, h1, h2, h3]

/-- Claim C2, witness: the priority theorem applied to a document holding a
`<main>` element. -/
theorem selectMainContent_priority_witness :
    selectMainContent mainDocFix = some mainNodeFix :=
  (selectMainContent_priority mainDocFix).1 mainNodeFix rfl

/-- Claim C3, counterexample: the decode step is not idempotent on every
input.  On `/l/?uddg=%2Fl%2F%3Fuddg%3Dfoo` one application yields
`/l/?uddg=foo`, which again starts with the redirect prefix, so a second
application decodes further, to `foo`. -/
theorem cleanRedirectUrl_not_idempotent_cex :
    cleanRedirectUrl (cleanRedirectUrl nestedRedirect) ≠ cleanRedirectUrl nestedRedirect := by
  decide

/-- Claim C3, amended: the decode step is correct on the reference input;
it is idempotent whenever its output does not itself start with the
redirect prefix `/l/?uddg=` (as on the reference input); and for a payload
with no further `uddg=` occurrence it truncates at the first `&` before
percent-decoding. -/
theorem cleanRedirectUrl_spec :
    cleanRedirectUrl ("/l/?uddg=https%3A%2F%2Fexample.com%2Fx&rut=abc") =
      ("https://example.com/x") ∧
    (∀ u : String, redirectPre.isPrefixOf (cleanRedirectUrl u).data = false →
      cleanRedirectUrl (cleanRedirectUrl u) = cleanRedirectUrl u) ∧
    (∀ s : List Char, dropAfterFirst uddgKey s = none →
      cleanRedirectUrl (String.mk (redirectPre ++ s)) =
        String.mk (pyUnquote (takeToFirst (("&").data) s))) := by
  refine ⟨by decide, ?_, ?_⟩
  · intro u h
    exact cleanRedirectUrl_of_not_redirect _ h
  · intro s h
    have hpre : redirectPre.isPrefixOf (String.mk (redirectPre ++ s)).data = true :=
      isPrefixOf_append_self _ _
    have hdata : (String.mk (redirectPre ++ s)).data = redirectPre ++ s := rfl
    simp only [cleanRedirectUrl, hdata, hpre, if_true, dropAfterFirst_pre,
      Option.getD_some, takeToFirst_eq_self uddgKey s h]

/-- Claim C3, witness: the amended theorem applied at concrete inputs. -/
theorem cleanRedirectUrl_spec_witness :
    cleanRedirectUrl (cleanRedirectUrl ("/l/?uddg=https%3A%2F%2Fexample.com%2Fx&rut=abc")) =
      cleanRedirectUrl ("/l/?uddg=https%3A%2F%2Fexample.com%2Fx&rut=abc") ∧
    cleanRedirectUrl (String.mk (redirectPre ++ ("abc%20d&x=1").data)) =
      String.mk (pyUnquote (takeToFirst (("&").data) (("abc%20d&x=1").data))) :=
  ⟨cleanRedirectUrl_spec.2.1 _ (by decide), cleanRedirectUrl_spec.2.2 _ (by decide)⟩

/-- Claim C4: the final bounding step leaves a text of length at most
`max_length` unchanged, and otherwise produces exactly the first
`max_length` characters followed by the three-character marker `...`,
for a total length of exactly `max_length + 3`. -/
theorem boundText_spec (text : List Char) (maxLength : Nat) :
    (text.length ≤ maxLength → boundText text maxLength = text) ∧
    (maxLength < text.length →
      (boundText text maxLength).length = maxLength + 3 ∧
      (boundText text maxLength).take maxLength = text.take maxLength ∧
      (boundText text maxLength).drop maxLength = ("...").data) := by
  constructor
  · intro h
    simp [boundText, Nat.not_lt.mpr h]
  · intro h
    have htk : (text.take maxLength).length = maxLength := by
      simp [List.length_take, Nat.min_eq_left (Nat.le_of_lt h)]
    refine ⟨?_, ?_, ?_⟩
    · simp [boundText, h, List.length_append, htk]
    · simp only [boundText, if_pos h, List.take_append_eq_append_take, htk,
        Nat.sub_self, List.take_zero, List.append_nil, List.take_take,
        Nat.min_self]
    · simp only [boundText, if_pos h, List.drop_append_eq_append_drop, htk,
        Nat.sub_self, List.drop_zero]
      simp [List.drop_eq_nil_of_le, htk.le]

/-- Claim C4, witness: the bounding theorem at `max_length = 4` on a
2-character and a 6-character text. -/
theorem boundText_spec_witness :
    boundText (("ab").data) 4 = ("ab").data ∧
    (boundText (("abcdef").data) 4).length = 4 + 3 :=
  ⟨(boundText_spec (("ab").data) 4).1 (by decide),
   ((boundText_spec (("abcdef").data) 4).2 (by decide)).1⟩

/-- Claim C5: whatever the body, a non-200 status makes the extractor
return the literal `HTTP <status>`, and (when the status is 200, the guard
tested first) a content type without `text/html` — compared after
lower-casing, as the source does — makes it return the literal
`Non-HTML content`. -/
theorem fetch_page_content_guards (r : Response) (maxLength : Nat) :
    (r.status ≠ 200 →
      fetch_page_content (Except.ok r) maxLength = ("HTTP ") ++ toString r.status) ∧
    (r.status = 200 → pyContains (lowerStr r.contentType) ("text/html") = false →
      fetch_page_content (Except.ok r) maxLength = ("Non-HTML content")) := by
  constructor
  · intro h; simp [fetch_page_content, h]
  · intro h hct; simp [fetch_page_content, h, hct]

/-- Claim C5, witness: the guard theorem at a 404 response and at a 200
`application/pdf` response. -/
theorem fetch_page_content_guards_witness :
    fetch_page_content (Except.ok notFoundResp) 2000 = ("HTTP 404") ∧
    fetch_page_content (Except.ok pdfResp) 2000 = ("Non-HTML content") :=
  ⟨((fetch_page_content_guards notFoundResp 2000).1 (by decide)).trans (by decide),
   (fetch_page_content_guards pdfResp 2000).2 (by decide) (by decide)⟩

/-- Claim C6: the extractor never propagates a failure: every outcome of the
fetch produces a plain string, and a raised fetch/parse failure with message
`e` produces exactly `Content extraction failed: <e>`. -/
theorem fetch_page_content_never_raises (fetched : Except String Response) (maxLength : Nat) :
    (∃ e, fetched = Except.error e ∧
      fetch_page_content fetched maxLength = ("Content extraction failed: ") ++ e) ∨
    (∃ r, fetched = Except.ok r ∧
      (fetch_page_content fetched maxLength = ("HTTP ") ++ toString r.status ∨
       fetch_page_content fetched maxLength = ("Non-HTML content") ∨
       fetch_page_content fetched maxLength = String.mk (extractText r.body maxLength))) := by
  cases fetched with
  | error e => exact Or.inl ⟨e, rfl, rfl⟩
  | ok r =>
    refine Or.inr ⟨r, rfl, ?_⟩
    by_cases h : r.status = 200
    · by_cases hct : pyContains (lowerStr r.contentType) ("text/html") = true
      · exact Or.inr (Or.inr (by simp [fetch_page_content, h, hct]))
      · refine Or.inr (Or.inl ?_)
        simp only [Bool.not_eq_true] at hct
        simp [fetch_page_content, h, hct]
    · exact Or.inl (by simp [fetch_page_content, h])

/-- Claim C7: a failed outer search request produces exactly the error
shape with no `query`, `results_count` or `results` key, and on every
outcome the error shape and the success shape are mutually exclusive. -/
theorem web_search_failure_shape (q : String) (lim : Nat) (ic : Bool)
    (pages : String → Except String Response) :
    (∀ e, web_search q lim ic (Except.error e) pages =
      { query := none, results_count := none, results := none,
        error := some (("Search failed: ") ++ e) }) ∧
    (∀ sf, ((web_search q lim ic sf pages).error.isSome ↔
        ((web_search q lim ic sf pages).query = none ∧
         (web_search q lim ic sf pages).results_count = none ∧
         (web_search q lim ic sf pages).results = none)) ∧
      ((web_search q lim ic sf pages).error = none ↔
        (web_search q lim ic sf pages).results.isSome)) := by
  constructor
  · intro e; rfl
  · intro sf
    cases sf with
    | error e => simp [web_search]
    | ok r =>
      by_cases h : r.status = 200
      · simp [web_search, h]
      · simp [web_search, h]

set_option maxRecDepth 8000 in
/-- Claim C8, counterexample: the claim bounds `content_preview` by 503
characters for every URL whose HEAD probe yields 200 and `text/html`, but
when the follow-up body GET raises with a long message the preview is the
extractor's failure string, which can be arbitrarily long (here 504). -/
theorem url_info_preview_overflow_cex :
    previewOf (url_info (Except.ok htmlHead) longFailPages) =
      some (("Content extraction failed: ") ++ longMsg) ∧
    503 < ((("Content extraction failed: ") ++ longMsg) : String).length :=
  ⟨rfl, by decide⟩

/-- Claim C8, amended: when the HEAD probe yields status 200 with a content
type containing `text/html`, `url_info` attaches a `content_preview`,
namely the extractor's output at `max_length = 500`; and whenever the
follow-up body GET itself succeeds with status 200 that preview has length
at most 503. -/
theorem url_info_preview_bound (h : HeadInfo) (pages : String → Except String Response)
    (r : Response)
    (hct : pyContains (lowerStr (h.contentTypeHdr.getD ("unknown"))) ("text/html") = true)
    (_hstat : h.status = 200)
    (hpage : pages h.finalUrl = Except.ok r) (hps : r.status = 200) :
    previewOf (url_info (Except.ok h) pages) = some (fetch_page_content (Except.ok r) 500) ∧
    (fetch_page_content (Except.ok r) 500).length ≤ 503 := by
  constructor
  · simp [url_info, previewOf, hct, hpage]
  · by_cases hhtml : pyContains (lowerStr r.contentType) ("text/html") = true
    · have hfe : fetch_page_content (Except.ok r) 500 = String.mk (extractText r.body 500) := by
        simp [fetch_page_content, hps, hhtml]
      rw [hfe]
      have hb : (extractText r.body 500).length ≤ 503 := boundText_length_le _ 500
      simpa [String.length] using hb
    · have hfe : fetch_page_content (Except.ok r) 500 = ("Non-HTML content") := by
        simp only [Bool.not_eq_true] at hhtml
        simp [fetch_page_content, hps, hhtml]
      rw [hfe]; decide

set_option maxRecDepth 8000 in
/-- Claim C8, witness for the amended theorem on a small page. -/
theorem url_info_preview_bound_witness :
    previewOf (url_info (Except.ok tinyHead) tinyPages) =
      some (fetch_page_content (Except.ok tinyPage) 500) ∧
    (fetch_page_content (Except.ok tinyPage) 500).length ≤ 503 :=
  url_info_preview_bound tinyHead tinyPages tinyPage (by decide) rfl rfl rfl

/-- Claim C9: on the fixture page with three well-formed result blocks,
`limit = 2` and `include_content = false` return exactly the first two
blocks in document order, each with its non-empty title and (redirect
resolved) URL, no `content` key, and `results_count = 2`. -/
theorem web_search_fixture_end_to_end :
    web_search ("lean theorem prover") 2 false (Except.ok fixtureResp) noPages =
      { query := some ("lean theorem prover"), results_count := some 2,
        results := some [
          { title := ("Alpha"), url := ("https://a.example/1"),
            snippet := ("First snippet"), content := none },
          { title := ("Beta"), url := ("https://example.com/x"),
            snippet := ("Second snippet"), content := none }],
        error := none } := rfl

/-- Claim C10: with `limit = 0` on a successfully fetched results page,
`web_search` does not fail: it returns the success shape with the query,
`results_count = 0` and an empty result list, whatever the document. -/
theorem web_search_limit_zero (q : String) (ic : Bool) (r : Response)
    (pages : String → Except String Response) (hst : r.status = 200) :
    web_search q 0 ic (Except.ok r) pages =
      { query := some q, results_count := some 0, results := some [], error := none } := by
  simp [web_search, hst]

/-- Claim C10, witness: `limit = 0` on the three-block fixture page. -/
theorem web_search_limit_zero_witness :
    web_search ("x") 0 true (Except.ok fixtureResp) noPages =
      { query := some ("x"), results_count := some 0, results := some [], error := none } :=
  web_search_limit_zero ("x") true fixtureResp noPages rfl

end WebSense
